import Mathlib

set_option maxHeartbeats 1000000

/-!
Shallow embedding of the videograb server.  The repository contains two
variants of the same Express + grammY server: `src/src/index.ts` (called V1
below) and `src/unnamed/part_000` (called V2 below).  They share the catalog
store (`File` model), the process-lifetime identifier cache (`cache` /
`fileIdCache`, a `Map<string,string>`), the TTL-bounded listing cache
(`filesCache`, a `NodeCache` with `stdTTL: 60 * 5`), the `/start` command
handler, the `bot.on(":video")` admin upload handler and the `GET /api/files`
listing endpoint.  The two variants differ in exactly two observable places:
V2 calls `filesCache.flushAll()` after `File.create` in the upload handler
while V1 does not, and V1 parses the page query with `parseInt` while V2 uses
`Number`.
-/

/-- A persisted catalog record, as created by `File.create` and read back by
`File.findById` and `File.find`.  `createdAt` is the creation timestamp used
by the `sort({ createdAt: -1 })` listing query. -/
structure FileRecord where
  id : String
  file_id : String
  title : String
  thumbnail : String
  createdAt : Nat
deriving DecidableEq

/-- `File.findById(id)`: first record in the store with the requested id. -/
def findById (store : List FileRecord) (id : String) : Option FileRecord :=
  store.find? (fun f => f.id == id)

/-- Character-list version of JavaScript string trimming (both variants call
`.trim()` on payloads and captions). -/
def trimChars (cs : List Char) : List Char :=
  ((cs.dropWhile Char.isWhitespace).reverse.dropWhile Char.isWhitespace).reverse

/-- JS `String.prototype.trim`. -/
def jsTrim (s : String) : String :=
  ⟨trimChars s.data⟩

/-- Numeric value of a list of decimal digit characters, accumulated left to
right as JS number parsing does. -/
def digitsToNat (cs : List Char) : Nat :=
  cs.foldl (fun a c => a * 10 + (c.toNat - 48)) 0

/-- Optional leading sign, shared by the `parseInt` and `Number` models. -/
def stripSign (cs : List Char) : Bool × List Char :=
  match cs with
  | [] => (false, [])
  | c :: rest =>
    if c = '-' then (true, rest)
    else if c = '+' then (false, rest)
    else (false, c :: rest)

/-- Apply a parsed sign to a digit value. -/
def signedVal (neg : Bool) (n : Nat) : Int :=
  if neg then -(n : Int) else (n : Int)

/-- Modelled fragment of JavaScript `parseInt` on an already-trimmed character
list: an optional sign followed by the longest prefix of decimal digits; no
digits at all is `NaN`, modelled as `none`.  Hexadecimal and radix arguments
are outside the fragment the endpoint exercises. -/
def parseIntChars (cs : List Char) : Option Int :=
  match stripSign cs with
  | (neg, u) =>
    let ds := u.takeWhile Char.isDigit
    if ds.isEmpty then none else some (signedVal neg (digitsToNat ds))

/-- Modelled fragment of JavaScript `Number` on an already-trimmed character
list: the empty string is `0` and an optional sign followed by decimal digits
only is parsed exactly; every other input is mapped to `NaN` (`none`).  The
full builtin additionally accepts fractional, exponent, hexadecimal and
`Infinity` forms, which this integer-valued fragment does not represent;
theorems quantifying over inputs therefore restrict to domains — signed
decimal integer literals, and digit-free non-`Infinity` strings (where the
real builtin returns only `0` or `NaN`) — on which the fragment agrees with
the full builtin. -/
def numberChars (cs : List Char) : Option Int :=
  if cs.isEmpty then some 0
  else
    match stripSign cs with
    | (neg, u) =>
      if u.isEmpty then none
      else if u.all Char.isDigit then some (signedVal neg (digitsToNat u))
      else none

/-- `parseInt(s)` including the implicit whitespace trimming. -/
def jsParseInt (s : String) : Option Int :=
  parseIntChars (trimChars s.data)

/-- `Number(s)` including the implicit whitespace trimming. -/
def jsNumber (s : String) : Option Int :=
  numberChars (trimChars s.data)

/-- JS `x || 1` applied to a parse result: `NaN` (`none`) and `0` are falsy
and yield `1`. -/
def orOne : Option Int → Int
  | none => 1
  | some 0 => 1
  | some n => n

/-- `Math.max(parseInt(req.query.page as string) || 1, 1)`
(src/src/index.ts, line 189); an absent query parameter parses as `NaN`. -/
def normalizePageV1 (q : Option String) : Int :=
  max (orOne (q.bind jsParseInt)) 1

/-- `Math.max(Number(req.query.page) || 1, 1)`
(src/unnamed/part_000, line 184); an absent query parameter is `NaN`. -/
def normalizePageV2 (q : Option String) : Int :=
  max (orOne (q.bind jsNumber)) 1

/-- `stdTTL: 60 * 5` (seconds) of the `filesCache` NodeCache instance. -/
def ttlSeconds : Nat := 60 * 5

/-- One stored `filesCache` entry: the cached value and the time it was set. -/
structure CEntry (α : Type) where
  value : α
  storedAt : Nat
deriving DecidableEq

/-- In-memory state of the `filesCache` NodeCache: most recent `set` first,
keyed by page number (the string keys `files_page_p` and `files_p` are in
bijection with the page number `p`). -/
abbrev CacheState (α : Type) := List (Int × CEntry α)

/-- `filesCache.set(key, value)` at the given time. -/
def cacheSet {α : Type} (c : CacheState α) (k : Int) (v : α) (now : Nat) : CacheState α :=
  (k, ⟨v, now⟩) :: c

/-- `filesCache.get(key)` at the given time, exposing the stored entry: an
entry is served only while its age is within `stdTTL`, an older entry reports
a miss (NodeCache checks the expiry timestamp on every `get`). -/
def cacheGetEntry {α : Type} (c : CacheState α) (k : Int) (now : Nat) : Option (CEntry α) :=
  match c.find? (fun p => p.1 == k) with
  | some p => if now ≤ p.2.storedAt + ttlSeconds then some p.2 else none
  | none => none

/-- `filesCache.get(key)` at the given time. -/
def cacheGet {α : Type} (c : CacheState α) (k : Int) (now : Nat) : Option α :=
  (cacheGetEntry c k now).map CEntry.value

/-- `filesCache.flushAll()`: discard every entry. -/
def cacheFlushAll {α : Type} (_c : CacheState α) : CacheState α := []

/-- The operations the server performs on `filesCache`: `set` (on a listing
miss) and `flushAll` (after `File.create` in the V2 upload handler). -/
inductive CacheOp (α : Type) where
  | set (k : Int) (v : α) (time : Nat)
  | flushAll
deriving DecidableEq

/-- Apply one cache operation. -/
def applyCacheOp {α : Type} (c : CacheState α) : CacheOp α → CacheState α
  | .set k v t => cacheSet c k v t
  | .flushAll => cacheFlushAll c

/-- Replay a chronological history of cache operations from the empty cache. -/
def runOps {α : Type} (ops : List (CacheOp α)) : CacheState α :=
  ops.foldl applyCacheOp []

/-- Insertion step of the `sort({ createdAt: -1 })` store query. -/
def insertDesc (r : FileRecord) : List FileRecord → List FileRecord
  | [] => [r]
  | x :: xs => if r.createdAt ≤ x.createdAt then x :: insertDesc r xs else r :: x :: xs

/-- The `sort({ createdAt: -1 })` ordering of the store query. -/
def sortByCreatedAtDesc : List FileRecord → List FileRecord
  | [] => []
  | x :: xs => insertDesc x (sortByCreatedAtDesc xs)

/-- `const limit = 30` of the listing endpoint. -/
def perPageLimit : Nat := 30

/-- The JSON body assembled by `GET /api/files`. -/
structure ListResponse where
  success : Bool
  page : Int
  perPage : Nat
  total : Nat
  totalPages : Nat
  data : List FileRecord
deriving DecidableEq

/-- The database round trip and response assembly of `GET /api/files` on a
cache miss: `File.find({}).sort({createdAt:-1}).skip(skip).limit(limit)`
together with `File.countDocuments()`, and
`totalPages = Math.ceil(total / limit)` (on naturals,
`(total + limit - 1) / limit`). -/
def buildResponse (store : List FileRecord) (page : Int) : ListResponse :=
  let total := store.length
  let skip := ((page - 1) * (perPageLimit : Int)).toNat
  { success := true
    page := page
    perPage := perPageLimit
    total := total
    totalPages := (total + perPageLimit - 1) / perPageLimit
    data := ((sortByCreatedAtDesc store).drop skip).take perPageLimit }

/-- The in-process server state the modelled handlers touch: the catalog
store, the `filesCache`, and a counter of store round trips performed by the
listing endpoint (one `Promise.all` of find + count per cache miss). -/
structure ServerState where
  store : List FileRecord
  filesCache : CacheState ListResponse
  dbQueries : Nat
deriving DecidableEq

/-- The `filesCache.get(cacheKey)` step of the listing endpoint — the code
before the `await` suspension point of the database query. -/
def listingCheck (st : ServerState) (page : Int) (now : Nat) : Option ListResponse :=
  cacheGet st.filesCache page now

/-- The database query, `filesCache.set` and respond step of the listing
endpoint, run only when the cache check missed. -/
def listingFill (st : ServerState) (page : Int) (now : Nat) : ListResponse × ServerState :=
  let resp := buildResponse st.store page
  (resp, { st with filesCache := cacheSet st.filesCache page resp now,
                   dbQueries := st.dbQueries + 1 })

/-- One uninterleaved run of the `GET /api/files` body for a given page. -/
def listingStep (st : ServerState) (page : Int) (now : Nat) : ListResponse × ServerState :=
  match listingCheck st page now with
  | some r => (r, st)
  | none => listingFill st page now

/-- `GET /api/files` of src/src/index.ts (`parseInt` page normalization). -/
def listingHandlerV1 (st : ServerState) (q : Option String) (now : Nat) :
    ListResponse × ServerState :=
  listingStep st (normalizePageV1 q) now

/-- `GET /api/files` of src/unnamed/part_000 (`Number` page normalization). -/
def listingHandlerV2 (st : ServerState) (q : Option String) (now : Nat) :
    ListResponse × ServerState :=
  listingStep st (normalizePageV2 q) now

/-- `payload.trim().replace(/^video_/, "")`: strip one leading `video_`. -/
def stripVideoTag : List Char → List Char
  | 'v' :: 'i' :: 'd' :: 'e' :: 'o' :: '_' :: rest => rest
  | cs => cs

/-- The short id extracted from a `/start` payload. -/
def extractId (payload : String) : String :=
  ⟨stripVideoTag (trimChars payload.data)⟩

/-- Lookup in the identifier cache (`cache` / `fileIdCache`,
a `Map<string,string>`). -/
def lookupId (cache : List (String × String)) (id : String) : Option String :=
  (cache.find? (fun p => p.1 == id)).map Prod.snd

/-- Result of resolving a short id to a media handle. -/
inductive ResolveResult where
  | found (file_id : String)
  | notFound
deriving DecidableEq

/-- The store-lookup arm of the `/start` handler: `File.findById(id)`; a hit
is written through to the identifier cache, a miss caches nothing. -/
def resolveFromStore (store : List FileRecord) (cache : List (String × String))
    (id : String) : ResolveResult × List (String × String) :=
  match findById store id with
  | none => (.notFound, cache)
  | some f => (.found f.file_id, (id, f.file_id) :: cache)

/-- `let file_id = cache.get(id); if (!file_id) { ... }` of the `/start`
handler: a cached empty string is falsy in JS and falls through to the store
lookup exactly like a cache miss. -/
def resolveId (store : List FileRecord) (cache : List (String × String))
    (id : String) : ResolveResult × List (String × String) :=
  match lookupId cache id with
  | some h => if h = "" then resolveFromStore store cache id else (.found h, cache)
  | none => resolveFromStore store cache id

/-- The user-visible replies of the `/start` handler. -/
inductive StartReply where
  | welcome
  | invalidLink
  | notAvailable
  | ready (file_id : String)
  | genericError
deriving DecidableEq

/-- The `/start` command handler (dispatch structure shared by both variants):
an absent (empty) payload is the welcome reply; a payload whose trimmed,
prefix-stripped id is empty is the invalid-link reply; an id with no record
is the not-available reply; otherwise the video is delivered. -/
def startHandler (store : List FileRecord) (cache : List (String × String))
    (payload : String) : StartReply × List (String × String) :=
  if payload = "" then (.welcome, cache)
  else
    let id := extractId payload
    if id = "" then (.invalidLink, cache)
    else
      match resolveId store cache id with
      | (.notFound, c) => (.notAvailable, c)
      | (.found h, c) => (.ready h, c)

/-- The video attachment of an inbound message (`ctx.message?.video`). -/
structure VideoInfo where
  file_id : String
  thumbnail : Option String
deriving DecidableEq

/-- An inbound bot message as the upload handler reads it. -/
structure IncomingMsg where
  senderId : String
  caption : Option String
  video : Option VideoInfo
deriving DecidableEq

/-- Outcome of the thumbnail relay (`downloadTelegramFile` followed by
`uploadToGitHub`); either network call can throw. -/
inductive RelayOutcome where
  | ok (url : String)
  | fetchFail
  | publishFail
deriving DecidableEq

/-- The replies the upload handler can send. -/
inductive BotReply where
  | onlyAdmin
  | uploadSuccess (id : String)
  | uploadFailure
deriving DecidableEq

/-- Observable actions of the upload handler, in program order. -/
inductive BotAction where
  | deleteMessage
  | reply (r : BotReply)
  | relayFetch (file_id : String)
  | relayPublish
  | dbCreate (r : FileRecord)
  | cacheFlush
deriving DecidableEq

/-- `ctx.message?.caption?.trim() || "Untitled Video"`. -/
def captionTitle : Option String → String
  | none => "Untitled Video"
  | some c => if jsTrim c = "" then "Untitled Video" else jsTrim c

/-- The `bot.on(":video")` upload handler.  `flushOnCreate` is the one
difference between the two variants: src/unnamed/part_000 calls
`filesCache.flushAll()` right after `File.create`, src/src/index.ts does not.
`relay` is the oracle for the thumbnail relay network calls (a thrown error
in either call lands in the surrounding catch, which replies with the generic
upload-failure message); `newId` is the id the store assigns at create time;
`now` is the record creation timestamp. -/
def uploadHandlerCore (flushOnCreate : Bool) (st : ServerState) (msg : IncomingMsg)
    (adminId : String) (relay : RelayOutcome) (newId : String) (now : Nat) :
    List BotAction × ServerState :=
  if msg.senderId = adminId then
    match msg.video with
    | none => ([], st)
    | some v =>
      let title := captionTitle msg.caption
      let persist := fun (url : String) (pre : List BotAction) =>
        let r : FileRecord := ⟨newId, v.file_id, title, url, now⟩
        let st' := { st with
          store := st.store ++ [r],
          filesCache := if flushOnCreate then cacheFlushAll st.filesCache else st.filesCache }
        (pre ++ [BotAction.dbCreate r]
             ++ (if flushOnCreate then [BotAction.cacheFlush] else [])
             ++ [BotAction.reply (.uploadSuccess newId)], st')
      match v.thumbnail with
      | none => persist "" []
      | some tfid =>
        match relay with
        | .fetchFail => ([.relayFetch tfid, .reply .uploadFailure], st)
        | .publishFail => ([.relayFetch tfid, .relayPublish, .reply .uploadFailure], st)
        | .ok url => persist url [.relayFetch tfid, .relayPublish]
  else
    ([.deleteMessage, .reply .onlyAdmin], st)

/-- The upload handler of src/src/index.ts (no cache invalidation). -/
def uploadHandlerV1 : ServerState → IncomingMsg → String → RelayOutcome → String → Nat →
    List BotAction × ServerState :=
  uploadHandlerCore false

/-- The upload handler of src/unnamed/part_000 (`filesCache.flushAll()`
between `File.create` and the success reply). -/
def uploadHandlerV2 : ServerState → IncomingMsg → String → RelayOutcome → String → Nat →
    List BotAction × ServerState :=
  uploadHandlerCore true

/-- A sample catalog record. -/
def recA : FileRecord := ⟨"a1", "fidA", "A", "", 0⟩

/-- The record created by the sample admin upload `msgB` below. -/
def recB1 : FileRecord := ⟨"b1", "fidB", "B", "", 20⟩

/-- Sample admin upload: a video without a thumbnail, captioned "B". -/
def msgB : IncomingMsg := ⟨"adm", some "B", some ⟨"fidB", none⟩⟩

/-- A server state holding one record and an empty listing cache. -/
def stW0 : ServerState := ⟨[recA], [], 0⟩

/-- `stW0` after a page-1 listing at time 10 has populated the cache. -/
def stC1a : ServerState := (listingHandlerV1 stW0 (some "1") 10).2

/-- The empty server state. -/
def stEmpty : ServerState := ⟨[], [], 0⟩

/-- Sample admin upload carrying a thumbnail handle. -/
def msgThumb : IncomingMsg := ⟨"u1", some "Trailer", some ⟨"vid1", some "th1"⟩⟩

/-- A sample cached listing response. -/
def respEmpty : ListResponse := buildResponse [] 1

/-- A sample store of 45 records. -/
def storeW45 : List FileRecord := List.replicate 45 recA

/-! ## Helper lemmas -/

/-- Claim C3: `filesCache.get` never serves an entry whose age exceeds the
5-minute `stdTTL` (such an entry reports a miss, by the expiry check inside
`cacheGetEntry`), and after a `flushAll` the cache state is exactly the state
rebuilt from the operations that follow the flush, so no entry created before
the most recent invalidation can ever be served. -/
theorem listing_cache_recency (ops pre post : List (CacheOp ListResponse)) (k : Int)
    (now : Nat) (e : CEntry ListResponse)
    (h : cacheGetEntry (runOps ops) k now = some e) :
    now - e.storedAt ≤ ttlSeconds ∧
    runOps (pre ++ CacheOp.flushAll :: post) = runOps post := by
  constructor
  · unfold cacheGetEntry at h
    split at h
    · split at h
      · injection h with h2
        subst h2
        omega
      · exact absurd h (by simp)
    · exact absurd h (by simp)
  · unfold runOps
    rw [List.foldl_append, List.foldl_cons]
    rfl

/-- Concrete instance of `listing_cache_recency`: one entry set at time 0,
read at time 5, and a flush erasing everything before it. -/
theorem listing_cache_recency_witness :
    (5 : Nat) - ((⟨respEmpty, 0⟩ : CEntry ListResponse).storedAt) ≤ ttlSeconds ∧
    runOps ([CacheOp.set 2 respEmpty 1] ++ CacheOp.flushAll :: [CacheOp.set 1 respEmpty 0]) =
      runOps [CacheOp.set 1 respEmpty 0] :=
  listing_cache_recency [CacheOp.set 1 respEmpty 0] [CacheOp.set 2 respEmpty 1]
    [CacheOp.set 1 respEmpty 0] 1 5 ⟨respEmpty, 0⟩ (by decide)

/-- Claim C5: the listing endpoints of both variants normalize the page
inputs `0`, `-5`, `"abc"` and an absent value to page 1, and with 45 records
and a page size of 30 the assembled response reports `totalPages = 2`. -/
theorem page_normalization (store : List FileRecord) (hlen : store.length = 45) :
    normalizePageV1 (some "0") = 1 ∧ normalizePageV1 (some "-5") = 1 ∧
    normalizePageV1 (some "abc") = 1 ∧ normalizePageV1 none = 1 ∧
    normalizePageV2 (some "0") = 1 ∧ normalizePageV2 (some "-5") = 1 ∧
    normalizePageV2 (some "abc") = 1 ∧ normalizePageV2 none = 1 ∧
    (buildResponse store 3).totalPages = 2 := by
  refine ⟨by decide, by decide, by decide, by decide, by decide, by decide, by decide,
    by decide, ?_⟩
  show (store.length + perPageLimit - 1) / perPageLimit = 2
  rw [hlen]
  decide

/-- Concrete instance of `page_normalization` on a store of 45 records. -/
theorem page_normalization_witness :
    normalizePageV1 (some "0") = 1 ∧ normalizePageV1 (some "-5") = 1 ∧
    normalizePageV1 (some "abc") = 1 ∧ normalizePageV1 none = 1 ∧
    normalizePageV2 (some "0") = 1 ∧ normalizePageV2 (some "-5") = 1 ∧
    normalizePageV2 (some "abc") = 1 ∧ normalizePageV2 none = 1 ∧
    (buildResponse storeW45 3).totalPages = 2 :=
  page_normalization storeW45 (by simp [storeW45])

/-- Claim C4: under the invariant that every identifier-cache entry agrees
with the store (records are immutable once created), resolving a persisted id
returns the store's media handle whether or not the cache already holds the
id; and a resolution that finds no record replies `notFound`, leaves the
cache untouched, and a record created later under that id then resolves
successfully without a restart. -/
theorem resolve_cache_consistent (store : List FileRecord)
    (cache : List (String × String)) (id : String)
    (hcons : ∀ i h, lookupId cache i = some h →
      (findById store i).map FileRecord.file_id = some h) :
    (∀ f, findById store id = some f →
      (resolveId store cache id).1 = ResolveResult.found f.file_id) ∧
    (findById store id = none →
      resolveId store cache id = (ResolveResult.notFound, cache) ∧
      ∀ f2, f2.id = id →
        (resolveId (store ++ [f2]) cache id).1 = ResolveResult.found f2.file_id) := by
  constructor
  · intro f hf
    cases hc : lookupId cache id with
    | none => simp [resolveId, hc, resolveFromStore, hf]
    | some h =>
      have hmap := hcons id h hc
      rw [hf] at hmap
      have hfh : f.file_id = h := by simpa using hmap
      by_cases he : h = ""
      · simp [resolveId, hc, he, resolveFromStore, hf]
      · simp [resolveId, hc, he, hfh]
  · intro hnone
    have hcnone : lookupId cache id = none := by
      cases hc : lookupId cache id with
      | none => rfl
      | some h =>
        have hmap := hcons id h hc
        rw [hnone] at hmap
        simp at hmap
    refine ⟨by simp [resolveId, hcnone, resolveFromStore, hnone], ?_⟩
    intro f2 hf2
    have happ : findById (store ++ [f2]) id = some f2 := by
      unfold findById at hnone ⊢
      rw [List.find?_append, hnone]
      simp [hf2]
    simp [resolveId, hcnone, resolveFromStore, happ]

/-- Concrete instance of `resolve_cache_consistent`: the persisted id `a1`
resolves to its stored handle from an empty cache. -/
theorem resolve_cache_consistent_witness :
    (resolveId [recA] [] "a1").1 = ResolveResult.found "fidA" :=
  (resolve_cache_consistent [recA] [] "a1" (by
    intro i h hc
    simp [lookupId] at hc)).1 recA (by decide)

/-- Claim C6: the `/start` handler replies with the static welcome on an
absent payload, with the invalid-link message when the trimmed and
prefix-stripped id is empty, and with the distinct not-available message when
the stripped id matches no record — never the invalid-link message in that
case. -/
theorem start_dispatch (store : List FileRecord) (cache : List (String × String))
    (p q : String)
    (hq : q ≠ "") (hqs : extractId q = "")
    (hp : p ≠ "") (hps : extractId p ≠ "")
    (hcache : lookupId cache (extractId p) = none)
    (hstore : findById store (extractId p) = none) :
    (startHandler store cache "").1 = StartReply.welcome ∧
    (startHandler store cache q).1 = StartReply.invalidLink ∧
    (startHandler store cache p).1 = StartReply.notAvailable ∧
    StartReply.notAvailable ≠ StartReply.invalidLink := by
  refine ⟨rfl, ?_, ?_, by simp⟩
  · simp [startHandler, hq, hqs]
  · simp [startHandler, hp, hps, resolveId, hcache, resolveFromStore, hstore]

/-- Concrete instance of `start_dispatch`: `/start video_abc123` against a
store with no record `abc123` yields the not-available reply, `/start video_`
yields the invalid-link reply, and an absent payload yields the welcome. -/
theorem start_dispatch_witness :
    (startHandler [] [] "").1 = StartReply.welcome ∧
    (startHandler [] [] "video_").1 = StartReply.invalidLink ∧
    (startHandler [] [] "video_abc123").1 = StartReply.notAvailable ∧
    StartReply.notAvailable ≠ StartReply.invalidLink :=
  start_dispatch [] [] "video_abc123" "video_" (by decide) (by decide) (by decide)
    (by decide) rfl rfl

/-- Claim C7: a video submission from any sender other than the configured
administrator makes both upload handlers delete the originating message and
notify the sender, with the server state (store and caches) left exactly
unchanged — no record creation and no relay call occurs. -/
theorem nonadmin_upload_noop (st : ServerState) (msg : IncomingMsg)
    (adminId newId : String) (relay : RelayOutcome) (now : Nat)
    (h : msg.senderId ≠ adminId) :
    uploadHandlerV1 st msg adminId relay newId now =
      ([BotAction.deleteMessage, BotAction.reply BotReply.onlyAdmin], st) ∧
    uploadHandlerV2 st msg adminId relay newId now =
      ([BotAction.deleteMessage, BotAction.reply BotReply.onlyAdmin], st) := by
  constructor <;> simp [uploadHandlerV1, uploadHandlerV2, uploadHandlerCore, h]

/-- Concrete instance of `nonadmin_upload_noop`: sender `u1` is not the
administrator `adminX`. -/
theorem nonadmin_upload_noop_witness :
    uploadHandlerV1 stEmpty msgThumb "adminX" RelayOutcome.fetchFail "n1" 0 =
      ([BotAction.deleteMessage, BotAction.reply BotReply.onlyAdmin], stEmpty) ∧
    uploadHandlerV2 stEmpty msgThumb "adminX" RelayOutcome.fetchFail "n1" 0 =
      ([BotAction.deleteMessage, BotAction.reply BotReply.onlyAdmin], stEmpty) :=
  nonadmin_upload_noop stEmpty msgThumb "adminX" "n1" RelayOutcome.fetchFail 0 (by decide)

/-- Claim C8: when a listing call for some page misses the cache, any later
call with the same page input within the TTL window of the stored snapshot
returns the identical response and leaves the state untouched (no further
store query), and the first call performed exactly one store round trip. -/
theorem listing_idempotent_ttl (st : ServerState) (q : Option String) (t1 t2 : Nat)
    (hmiss : listingCheck st (normalizePageV2 q) t1 = none)
    (hwin : t2 ≤ t1 + ttlSeconds) :
    listingHandlerV2 (listingHandlerV2 st q t1).2 q t2 = listingHandlerV2 st q t1 ∧
    ((listingHandlerV2 st q t1).2).dbQueries = st.dbQueries + 1 := by
  have h1 : listingHandlerV2 st q t1 = listingFill st (normalizePageV2 q) t1 := by
    unfold listingHandlerV2 listingStep
    rw [hmiss]
  have h2 : listingCheck (listingFill st (normalizePageV2 q) t1).2 (normalizePageV2 q) t2
      = some (listingFill st (normalizePageV2 q) t1).1 := by
    unfold listingFill listingCheck cacheGet cacheGetEntry cacheSet
    simp [hwin]
  constructor
  · rw [h1]
    unfold listingHandlerV2 listingStep
    rw [h2]
  · rw [h1]
    rfl

/-- Concrete instance of `listing_idempotent_ttl`: a first page-1 listing at
time 0 and a repeat at time 100 on a one-record store. -/
theorem listing_idempotent_ttl_witness :
    listingHandlerV2 (listingHandlerV2 stW0 (some "1") 0).2 (some "1") 100 =
      listingHandlerV2 stW0 (some "1") 0 ∧
    ((listingHandlerV2 stW0 (some "1") 0).2).dbQueries = stW0.dbQueries + 1 :=
  listing_idempotent_ttl stW0 (some "1") 0 100 rfl (by decide)

/-- Claim C9 is false as stated: in the interleaving where both concurrent
requests for the same page run their cache check (on the shared pre-fill
state, where both miss) before either has stored the snapshot, each request
proceeds to its own store query, so two queries are issued, not exactly one —
the endpoint has no single-flight guard. -/
theorem concurrent_listing_double_query :
    listingCheck stW0 1 0 = none ∧
    ((listingFill (listingFill stW0 1 0).2 1 0).2).dbQueries = stW0.dbQueries + 2 ∧
    stW0.dbQueries + 2 ≠ stW0.dbQueries + 1 := by
  refine ⟨rfl, rfl, by decide⟩

/-- Claim C9 (amended): of two concurrent listing requests for the same page
within one TTL window, a request whose cache check runs after the other
request stored the snapshot is served from the cache with no further store
query (one query in total), while a request whose check ran before either
fill issues its own store query (two queries in total for the overlapped
interleaving). -/
theorem concurrent_listing_queries (st : ServerState) (page : Int) (t1 t2 t3 : Nat)
    (hmiss1 : listingCheck st page t1 = none)
    (hmiss2 : listingCheck st page t2 = none)
    (hwin : t3 ≤ t1 + ttlSeconds) :
    (listingStep (listingStep st page t1).2 page t3 =
        ((listingStep st page t1).1, (listingStep st page t1).2) ∧
      ((listingStep st page t1).2).dbQueries = st.dbQueries + 1) ∧
    ((listingFill (listingStep st page t1).2 page t2).2).dbQueries =
      st.dbQueries + 2 := by
  have h1 : listingStep st page t1 = listingFill st page t1 := by
    unfold listingStep
    rw [hmiss1]
  have h2 : listingCheck (listingFill st page t1).2 page t3
      = some (listingFill st page t1).1 := by
    unfold listingFill listingCheck cacheGet cacheGetEntry cacheSet
    simp [hwin]
  rw [h1]
  refine ⟨⟨?_, rfl⟩, rfl⟩
  unfold listingStep
  rw [h2]

/-- Concrete instance of `concurrent_listing_queries`: the overlapped
interleaving on a one-record store issues two store queries. -/
theorem concurrent_listing_queries_witness :
    ((listingFill (listingStep stW0 1 0).2 1 0).2).dbQueries = stW0.dbQueries + 2 :=
  (concurrent_listing_queries stW0 1 0 0 50 rfl rfl (by decide)).2

/-- Claim C2 is false as stated: when the thumbnail relay fails, both upload
handlers abort inside the catch block — the state (and so the store) is
unchanged, no `MediaRecord` is persisted, and the administrator receives the
generic upload-failure reply instead of a partial-success acknowledgment. -/
theorem thumbnail_failure_counterexample :
    uploadHandlerV1 stEmpty msgThumb "u1" RelayOutcome.fetchFail "id1" 7 =
      ([BotAction.relayFetch "th1", BotAction.reply BotReply.uploadFailure], stEmpty) ∧
    uploadHandlerV2 stEmpty msgThumb "u1" RelayOutcome.fetchFail "id1" 7 =
      ([BotAction.relayFetch "th1", BotAction.reply BotReply.uploadFailure], stEmpty) ∧
    (uploadHandlerV2 stEmpty msgThumb "u1" RelayOutcome.fetchFail "id1" 7).2.store = [] := by
  refine ⟨by decide, by decide, by decide⟩

/-- Claim C2 (amended): for an administrator upload with a thumbnail handle,
a failing thumbnail relay (fetch or publish) aborts the workflow in both
variants: the server state is unchanged (no record persisted, no cache
invalidation) and the reply is the generic upload-failure message. -/
theorem thumbnail_failure_aborts (st : ServerState) (msg : IncomingMsg)
    (adminId newId : String) (now : Nat) (v : VideoInfo) (tfid : String)
    (relay : RelayOutcome)
    (hadmin : msg.senderId = adminId) (hv : msg.video = some v)
    (ht : v.thumbnail = some tfid)
    (hfail : relay = RelayOutcome.fetchFail ∨ relay = RelayOutcome.publishFail) :
    ((uploadHandlerV1 st msg adminId relay newId now).2 = st ∧
      (uploadHandlerV2 st msg adminId relay newId now).2 = st) ∧
    ((uploadHandlerV1 st msg adminId relay newId now).1 =
        [BotAction.relayFetch tfid, BotAction.reply BotReply.uploadFailure] ∨
      (uploadHandlerV1 st msg adminId relay newId now).1 =
        [BotAction.relayFetch tfid, BotAction.relayPublish,
          BotAction.reply BotReply.uploadFailure]) ∧
    ((uploadHandlerV2 st msg adminId relay newId now).1 =
        [BotAction.relayFetch tfid, BotAction.reply BotReply.uploadFailure] ∨
      (uploadHandlerV2 st msg adminId relay newId now).1 =
        [BotAction.relayFetch tfid, BotAction.relayPublish,
          BotAction.reply BotReply.uploadFailure]) := by
  rcases hfail with hf | hf <;> subst hf <;>
    simp [uploadHandlerV1, uploadHandlerV2, uploadHandlerCore, hadmin, hv, ht]

/-- Concrete instance of `thumbnail_failure_aborts` with a failing publish. -/
theorem thumbnail_failure_aborts_witness :
    ((uploadHandlerV1 stEmpty msgThumb "u1" RelayOutcome.publishFail "id1" 7).2 = stEmpty ∧
      (uploadHandlerV2 stEmpty msgThumb "u1" RelayOutcome.publishFail "id1" 7).2 = stEmpty) ∧
    ((uploadHandlerV1 stEmpty msgThumb "u1" RelayOutcome.publishFail "id1" 7).1 =
        [BotAction.relayFetch "th1", BotAction.reply BotReply.uploadFailure] ∨
      (uploadHandlerV1 stEmpty msgThumb "u1" RelayOutcome.publishFail "id1" 7).1 =
        [BotAction.relayFetch "th1", BotAction.relayPublish,
          BotAction.reply BotReply.uploadFailure]) ∧
    ((uploadHandlerV2 stEmpty msgThumb "u1" RelayOutcome.publishFail "id1" 7).1 =
        [BotAction.relayFetch "th1", BotAction.reply BotReply.uploadFailure] ∨
      (uploadHandlerV2 stEmpty msgThumb "u1" RelayOutcome.publishFail "id1" 7).1 =
        [BotAction.relayFetch "th1", BotAction.relayPublish,
          BotAction.reply BotReply.uploadFailure]) :=
  thumbnail_failure_aborts stEmpty msgThumb "u1" "id1" 7 ⟨"vid1", some "th1"⟩ "th1"
    RelayOutcome.publishFail rfl rfl rfl (Or.inr rfl)

/-- Claim C1: the src/src/index.ts upload handler persists the record and
sends the success acknowledgment but performs no cache invalidation (no
`flushAll` action, `filesCache` unchanged), so a page-1 listing issued after
the acknowledgment but within the TTL of a previously cached snapshot is
served the stale snapshot that excludes the new record; the
src/unnamed/part_000 handler flushes between `File.create` and the reply,
after which the same page-1 listing does include the new record. -/
theorem upload_missing_invalidation :
    (uploadHandlerV1 stC1a msgB "adm" RelayOutcome.fetchFail "b1" 20).1 =
      [BotAction.dbCreate recB1, BotAction.reply (BotReply.uploadSuccess "b1")] ∧
    (uploadHandlerV1 stC1a msgB "adm" RelayOutcome.fetchFail "b1" 20).2.filesCache =
      stC1a.filesCache ∧
    ((listingHandlerV1 (uploadHandlerV1 stC1a msgB "adm" RelayOutcome.fetchFail "b1" 20).2
        (some "1") 30).1).data.all (fun r => r.file_id != "fidB") = true ∧
    (uploadHandlerV2 stC1a msgB "adm" RelayOutcome.fetchFail "b1" 20).1 =
      [BotAction.dbCreate recB1, BotAction.cacheFlush,
        BotAction.reply (BotReply.uploadSuccess "b1")] ∧
    ((listingHandlerV2 (uploadHandlerV2 stC1a msgB "adm" RelayOutcome.fetchFail "b1" 20).2
        (some "1") 30).1).data.any (fun r => r.file_id == "fidB") = true := by
  refine ⟨by decide, by decide, by decide, by decide, by decide⟩
